import Mathlib

/-!
Verification of the schema-normalization engine of the dairy-data-analysis
repository (backend/data_processor.py `standardize_columns`, plus the
post-processing boundary in backend/main.py `upload_file`).

The embedding models a pandas DataFrame as an ordered list of column names
together with rows of cell values.  Machine floats are modelled as exact
rationals; pandas' NaN, +inf, -inf, None and NaT markers are explicit
constructors of the cell-value type.  All definitions are executable and
translated from the Python source.
-/

namespace Dairy

/-- A calendar date as produced by the date parser (pandas `to_datetime`). -/
structure Date where
  year : Nat
  month : Nat
  day : Nat
deriving DecidableEq

/-- A cell value of the table.  `str`/`intV`/`floatV` are ordinary scalars,
`dateV` a parsed datetime cell, `nan` the float-NaN (also standing for
pandas NaT), `inf`/`ninf` the two float infinities, `null` Python's None. -/
inductive Value where
  | str (s : String)
  | intV (n : Int)
  | floatV (q : ℚ)
  | dateV (d : Date)
  | nan
  | inf
  | ninf
  | null
deriving DecidableEq

/-- A table: ordered column headers plus rows of cells (positional). -/
structure Table where
  cols : List String
  rows : List (List Value)
deriving DecidableEq

/-- The keyword table of `standardize_columns` (source lines 12-19),
in Python dict insertion order. -/
def mappings : List (String × List String) :=
  [ ("date", [ "date", "time", "day", "timestamp", "record_date" ]),
    ("cow_id", [ "id", "tag", "cow", "animal", "animal_id", "cow_tag" ]),
    ("milk_yield", [ "yield", "vol", "liter", "amount", "qty", "production",
                     "milk_amount", "milk_production" ]),
    ("fat_percentage", [ "fat", "cream", "fat_content", "fat_%" ]),
    ("protein_percentage", [ "prot", "protein", "protein_content", "protein_%" ]),
    ("feed_intake", [ "feed", "food", "ration", "intake", "dmi", "dry_matter_intake" ]) ]

/-- Python `str.lower()` on one character, for the ASCII alphabet the
headers use. -/
def lowerChar (c : Char) : Char :=
  if 65 ≤ c.toNat && c.toNat ≤ 90 then Char.ofNat (c.toNat + 32) else c

/-- Python `str.lower()`. -/
def pyLower (s : String) : String :=
  String.mk (s.toList.map lowerChar)

/-- A Python whitespace character (the set `str.strip()` removes). -/
def isSpaceChar (c : Char) : Bool :=
  c == ' ' || c == '\t' || c == '\n' || c == '\r' || c.toNat == 11 || c.toNat == 12

/-- Python `str.strip()`: drop leading and trailing whitespace. -/
def pyStrip (s : String) : String :=
  String.mk (((s.toList.dropWhile isSpaceChar).reverse.dropWhile isSpaceChar).reverse)

/-- A regex word character (`\w`), restricted to the ASCII alphabet the
keyword table and headers use: letters, digits, underscore. -/
def isWordChar (c : Char) : Bool :=
  c.isAlphanum || c == '_'

/-- Word-character status of an optional character; absent (string edge)
counts as non-word, exactly as regex word boundaries treat string edges. -/
def optWord : Option Char → Bool
  | some c => isWordChar c
  | none => false

/-- A regex word boundary `\b` holds between two (optional) characters iff
exactly one side is a word character. -/
def boundaryAt (a b : Option Char) : Bool :=
  optWord a != optWord b

/-- Consume a literal pattern from the front of the text.  Returns the
remaining text on success. -/
def consume : List Char → List Char → Option (List Char)
  | [], s => some s
  | _ :: _, [] => none
  | k :: ks, c :: cs => if k == c then consume ks cs else none

/-- Does the literal keyword `k` match at the current position, with a word
boundary before its first and after its last character?  `prev` is the
character just before the current position (none at start of string). -/
def matchHere (k : List Char) (prev : Option Char) (s : List Char) : Bool :=
  match consume k s with
  | none => false
  | some rest => boundaryAt prev k.head? && boundaryAt k.getLast? rest.head?

/-- Scan the text for a whole-word occurrence of the keyword. -/
def searchAux (k : List Char) : Option Char → List Char → Bool
  | prev, [] => matchHere k prev []
  | prev, c :: cs => matchHere k prev (c :: cs) || searchAux k (some c) cs

/-- `re.search(r'\b' + k + r'\b', s)` of the source (line 30) for the
literal keywords of the table (none contains a regex metacharacter other
than `%`, which is literal). -/
def searchWord (k s : String) : Bool :=
  searchAux k.toList none s.toList

/-- The inner loop of header resolution (source lines 28-35): the first
canonical field, in table order, one of whose keywords occurs whole-word in
the normalized header and which is not yet claimed.  A field whose keywords
hit but which is already claimed is skipped and later fields are still
tried, exactly as the `break` placement in the source does. -/
def findStandard (used : List String) (colLower : String) : Option String :=
  mappings.findSome? (fun m =>
    if (m.2.any (fun k => searchWord k colLower)) && !(used.contains m.1)
    then some m.1 else none)

/-- One step of `re.sub(r'[^a-zA-Z0-9]+', '_', s)` (source line 39): each
maximal run of non-alphanumeric characters becomes a single underscore. -/
def collapseRuns : Bool → List Char → List Char
  | _, [] => []
  | inRun, c :: cs =>
    if c.isAlphanum then c :: collapseRuns false cs
    else if inRun then collapseRuns true cs
    else '_' :: collapseRuns true cs

/-- Python `str.strip('_')`: drop leading and trailing underscores. -/
def stripUnderscores (l : List Char) : List Char :=
  ((l.dropWhile (fun a => a == '_')).reverse.dropWhile (fun a => a == '_')).reverse

/-- The slug of an unmatched header (source line 39). -/
def slugify (s : String) : String :=
  String.mk (stripUnderscores (collapseRuns false s.toList))

/-- Resolve the raw headers in input order (source lines 21-45), threading
the set of already-claimed canonical names.  An unmatched header whose slug
is a canonical field name that is NOT yet claimed receives the suffix
`_original`; any other unmatched header keeps its slug (source lines 41-45,
condition `clean_name in mappings and clean_name not in used_standards`). -/
def resolveAux (used : List String) : List String → List String
  | [] => []
  | c :: cs =>
    let colLower := pyStrip (pyLower c)
    match findStandard used colLower with
    | some std => std :: resolveAux (std :: used) cs
    | none =>
      let clean := slugify colLower
      if (mappings.any (fun m => m.1 == clean)) && !(used.contains clean)
      then (clean ++ "_original") :: resolveAux used cs
      else clean :: resolveAux used cs

/-- Output names of all headers, in column order. -/
def resolveHeaders (cols : List String) : List String :=
  resolveAux [] cols

/-- Numeric value of a digit list. -/
def digitsVal (l : List Char) : Nat :=
  l.foldl (fun a c => a * 10 + (c.toNat - 48)) 0

/-- Non-empty and all ASCII digits. -/
def allDigits (l : List Char) : Bool :=
  !l.isEmpty && l.all Char.isDigit

/-- Split a character list at every `.` (Python `str.split('.')`-like). -/
def splitDot : List Char → List (List Char)
  | [] => [ [] ]
  | c :: cs =>
    if c == '.' then [] :: splitDot cs
    else
      match splitDot cs with
      | h :: t => (c :: h) :: t
      | [] => [ [ c ] ]

/-- Modelled: `pd.to_numeric` literal parsing, restricted to the decimal
numerals the inputs use — optional sign, digits, optional fractional part.
An integer literal yields an integer value and a literal with a fractional
part a float value, mirroring pandas' integer/float distinction. -/
def parseNum (s : String) : Option Value :=
  let t := (pyStrip s).toList
  let neg := t.head? == some '-'
  let body := match t with
    | '-' :: r => r
    | '+' :: r => r
    | r => r
  match splitDot body with
  | [ip] =>
    if allDigits ip then
      some (Value.intV (if neg then -(digitsVal ip : Int) else (digitsVal ip : Int)))
    else none
  | [ip, fp] =>
    if allDigits ip && allDigits fp then
      let n : Int := (digitsVal ip * 10 ^ fp.length + digitsVal fp : Nat)
      some (Value.floatV (Rat.divInt (if neg then -n else n) ((10 ^ fp.length : Nat) : Int)))
    else none
  | _ => none

/-- `pd.to_numeric(·, errors='coerce')` on a single cell (source line 66):
numbers pass through, a string parses or coerces to NaN, None coerces to
NaN, non-numeric markers stay as they are. -/
def toNumericValue : Value → Value
  | Value.str s => match parseNum s with
    | some v => v
    | none => Value.nan
  | Value.intV n => Value.intV n
  | Value.floatV q => Value.floatV q
  | Value.dateV d => Value.dateV d
  | Value.nan => Value.nan
  | Value.inf => Value.inf
  | Value.ninf => Value.ninf
  | Value.null => Value.nan

/-- `.fillna(0)` after the numeric coercion (source line 66): NaN becomes
zero (a float zero, as pandas columns holding NaN are float columns);
everything else — infinities included — is untouched. -/
def fillZero : Value → Value
  | Value.nan => Value.floatV 0
  | Value.null => Value.floatV 0
  | v => v

/-- Modelled: `pd.to_datetime(·, errors='coerce')` on a single cell,
restricted to the ISO `YYYY-MM-DD` string form the inputs use; any other
value fails to parse (coerces to NaT). -/
def parseDate : Value → Option Date
  | Value.str s =>
    match s.toList with
    | [y1, y2, y3, y4, h1, m1, m2, h2, d1, d2] =>
      if (y1.isDigit && y2.isDigit && y3.isDigit && y4.isDigit &&
          h1 == '-' && m1.isDigit && m2.isDigit &&
          h2 == '-' && d1.isDigit && d2.isDigit) then
        let y := digitsVal [y1, y2, y3, y4]
        let m := digitsVal [m1, m2]
        let d := digitsVal [d1, d2]
        if 1 ≤ m && m ≤ 12 && 1 ≤ d && d ≤ 31 then some ⟨y, m, d⟩ else none
      else none
    | _ => none
  | _ => none

/-- Zero-padded decimal rendering of width `w`. -/
def padNum (w n : Nat) : String :=
  let s := toString n
  if s.length < w then String.mk (List.replicate (w - s.length) '0') ++ s else s

/-- `strftime('%Y-%m-%d')` (source line 59). -/
def formatDate (d : Date) : String :=
  padNum 4 d.year ++ "-" ++ padNum 2 d.month ++ "-" ++ padNum 2 d.day

/-- The `to_datetime` pass on one cell: parsed cells become datetime cells,
failures become NaT (modelled by `nan`). -/
def cleanDateCell (v : Value) : Value :=
  match parseDate v with
  | some d => Value.dateV d
  | none => Value.nan

/-- Apply the `to_datetime` pass to the cells of the columns named
`"date"` (source lines 55-56). -/
def applyDates (names : List String) (row : List Value) : List Value :=
  (names.zip row).map (fun p => if p.1 == "date" then cleanDateCell p.2 else p.2)

/-- Not a NaT/NaN marker. -/
def notNaN : Value → Bool
  | Value.nan => false
  | _ => true

/-- The `dropna(subset=["date"])` row predicate (source line 57): keep the
row iff no `"date"` cell is NaT. -/
def rowHasDate (names : List String) (row : List Value) : Bool :=
  (names.zip row).all (fun p => (p.1 != "date") || notNaN p.2)

/-- The `strftime` pass on one cell: a datetime cell becomes its fixed
`YYYY-MM-DD` string rendering. -/
def fmtCell : Value → Value
  | Value.dateV d => Value.str (formatDate d)
  | v => v

/-- Apply the `strftime` pass to the cells of the columns named `"date"`
(source line 59). -/
def fmtDates (names : List String) (row : List Value) : List Value :=
  (names.zip row).map (fun p => if p.1 == "date" then fmtCell p.2 else p.2)

/-- Does every `"date"` cell of the raw row parse as a date? -/
def datesOk (names : List String) (row : List Value) : Bool :=
  (names.zip row).all (fun p => (p.1 != "date") || (parseDate p.2).isSome)

/-- The canonical numeric columns (source line 62). -/
def numericCols : List String :=
  [ "milk_yield", "fat_percentage", "protein_percentage", "feed_intake" ]

/-- Smallest number of decimal digits that writes the (reduced) rational
exactly — the least `k` with `q.den` dividing `10^k` — when at most 39
suffice. -/
def decExp (q : ℚ) : Option Nat :=
  (List.range 40).find? (fun k => (10 ^ k) % q.den == 0)

/-- Modelled: the decimal string a float prints as under `astype(str)`.
A whole number renders with a trailing `.0` (the float artifact the source
then strips); other values render with their exact decimal digits. -/
def renderFloat (q : ℚ) : String :=
  match decExp q with
  | some 0 => toString q.num ++ ".0"
  | some k =>
    let m := q.num * ((10 ^ k) / q.den : Nat)
    let sign := if m < 0 then "-" else ""
    let ds := toString m.natAbs
    let ds := if ds.length ≤ k
              then String.mk (List.replicate (k + 1 - ds.length) '0') ++ ds
              else ds
    let l := ds.toList
    sign ++ String.mk (l.take (l.length - k)) ++ "." ++ String.mk (l.drop (l.length - k))
  | none => toString q.num ++ "/" ++ toString q.den

/-- `astype(str)` on a single cell (source line 71). -/
def asString : Value → String
  | Value.str s => s
  | Value.intV n => toString n
  | Value.floatV q => renderFloat q
  | Value.dateV d => formatDate d
  | Value.nan => "nan"
  | Value.inf => "inf"
  | Value.ninf => "-inf"
  | Value.null => "None"

/-- Does the string end in the two characters `.0`? -/
def endsWithDot0 (s : String) : Bool :=
  match s.toList.reverse with
  | '0' :: '.' :: _ => true
  | _ => false

/-- `.str.replace(r'\.0$', '', regex=True)` (source line 71): remove one
trailing `.0`.  (Python's `$` nuance of also matching just before a final
newline is not modelled; the cells at hand have no trailing newline.) -/
def stripDot0 (s : String) : String :=
  if endsWithDot0 s then String.mk s.toList.dropLast.dropLast else s

/-- The per-cell coercion of source lines 61-71, dispatched on the resolved
column name: canonical numeric columns get `to_numeric` + `fillna(0)`, the
`cow_id` column gets `astype(str)` + `.0`-suffix stripping, every other
column passes through untouched. -/
def coerceCell (name : String) (v : Value) : Value :=
  if numericCols.contains name then fillZero (toNumericValue v)
  else if name == "cow_id" then Value.str (stripDot0 (asString v))
  else v

/-- Apply the per-cell coercions across one row. -/
def coerceRow (names : List String) (row : List Value) : List Value :=
  (names.zip row).map (fun p => coerceCell p.1 p.2)

/-- Rows of the normalized table (source lines 50-73): when a `"date"`
column is present, the `to_datetime` / `dropna` / `strftime` stages run
first, then the numeric and id coercions. -/
def standardizeRows (names : List String) (rows : List (List Value)) : List (List Value) :=
  (if names.contains "date"
   then ((rows.map (applyDates names)).filter (rowHasDate names)).map (fmtDates names)
   else rows).map (coerceRow names)

/-- `standardize_columns` (source lines 5-73): resolve the headers, then
clean the rows. -/
def standardize_columns (t : Table) : Table :=
  ⟨resolveHeaders t.cols, standardizeRows (resolveHeaders t.cols) t.rows⟩

/-- `df.replace([np.inf, -np.inf], 0)` on a cell (main.py line 42). -/
def replaceInf : Value → Value
  | Value.inf => Value.floatV 0
  | Value.ninf => Value.floatV 0
  | v => v

/-- `df.where(pd.notnull(df), None)` on a cell (main.py line 43): null
markers (NaN/NaT/None) become an explicit None. -/
def whereNotNull : Value → Value
  | Value.nan => Value.null
  | Value.null => Value.null
  | v => v

/-- `.round(4)` on a cell of a numeric column (main.py lines 46-47); only
float cells are affected.  (The tie-breaking direction of the float
rounding is immaterial here and modelled as round-half-up.) -/
def round4 : Value → Value
  | Value.floatV q => Value.floatV (Rat.divInt ((q.num * 20000 + (q.den : Int)) / (2 * (q.den : Int))) 10000)
  | v => v

/-- The post-processing `upload_file` applies to each cell before
serialization (main.py lines 42-47). -/
def sanitizeCell (v : Value) : Value :=
  round4 (whereNotNull (replaceInf v))

/-- The full `/upload` data path (main.py lines 38-53): normalization, then
the per-cell sanitization of the output boundary. -/
def uploadPipeline (t : Table) : Table :=
  ⟨(standardize_columns t).cols, (standardize_columns t).rows.map (fun r => r.map sanitizeCell)⟩

/-- A JSON-safe scalar: anything but NaN and the two infinities. -/
def isJsonFinite : Value → Bool
  | Value.nan => false
  | Value.inf => false
  | Value.ninf => false
  | _ => true

/-- The spec's date-row-dropping example table: rows
`[{"date":"2024-01-01","milk_yield":"30"}, {"date":"not-a-date","milk_yield":"20"}]`. -/
def exampleTable : Table :=
  ⟨[ "date", "milk_yield" ],
   [ [ Value.str "2024-01-01", Value.str "30" ],
     [ Value.str "not-a-date", Value.str "20" ] ]⟩

/-! ## Helper lemmas -/

/-- Zipping the names against a row transformed cell-by-cell is the
cell-by-cell transformation of the zipped pairs. -/
theorem zip_map_snd (f : String × Value → Value) (ns : List String) :
    ∀ r : List Value,
      ns.zip ((ns.zip r).map f) = (ns.zip r).map (fun p => (p.1, f p)) := by
  induction ns with
  | nil => intro r; simp
  | cons n ns ih =>
    intro r
    cases r with
    | nil => simp
    | cons v vs => simp [ih]

/-- The `dropna` predicate evaluated after the `to_datetime` pass agrees
with date-parsability of the raw row. -/
theorem rowHasDate_applyDates (ns : List String) (r : List Value) :
    rowHasDate ns (applyDates ns r) = datesOk ns r := by
  unfold rowHasDate applyDates datesOk
  rw [zip_map_snd, List.all_map]
  congr 1
  funext p
  by_cases hp : p.1 = "date"
  · simp only [Function.comp, hp, beq_self_eq_true, if_true, bne_self_eq_false,
      Bool.false_or]
    cases hpd : parseDate p.2 <;> simp [cleanDateCell, hpd, notNaN]
  · have hb : (p.1 == "date") = false := beq_eq_false_iff_ne.mpr hp
    simp [Function.comp, hb, bne]

/-- With a `"date"` column present, the three date stages amount to keeping
exactly the rows whose raw date cells parse and formatting those. -/
theorem standardizeRows_date (ns : List String) (rows : List (List Value))
    (h : ns.contains "date" = true) :
    standardizeRows ns rows
      = (rows.filter (datesOk ns)).map
          (fun r => coerceRow ns (fmtDates ns (applyDates ns r))) := by
  unfold standardizeRows
  rw [h, if_pos rfl]
  induction rows with
  | nil => rfl
  | cons r rs ih =>
    simp only [List.map_cons, List.filter_cons, rowHasDate_applyDates]
    cases hd : datesOk ns r <;> simp_all

/-- Every cell is JSON-finite after the output-boundary sanitization. -/
theorem sanitize_finite (v : Value) : isJsonFinite (sanitizeCell v) = true := by
  cases v <;> rfl

/-! ## Claim theorems -/

/-- C1: In header resolution the source appends the `_original` suffix to a
canonical-named slug exactly when the canonical field is NOT yet claimed
(`clean_name not in used_standards`), the reverse of the claim: after
`"fat %"` claims `fat_percentage`, the unmatched header `"fat_percentage"`
keeps its bare slug, while a lone `"fat_percentage"` header (field
unclaimed) receives `_original`. -/
theorem fallback_suffix_condition_inverted :
    resolveHeaders [ "fat %", "fat_percentage" ]
      = [ "fat_percentage", "fat_percentage" ]
    ∧ resolveHeaders [ "fat_percentage" ] = [ "fat_percentage_original" ] := by
  refine ⟨by decide, by decide⟩

/-- C2: the at-most-one-claim invariant fails on the code: the input table
with headers `["fat %", "fat_percentage"]` normalizes to two output columns
both named `fat_percentage`. -/
theorem duplicate_canonical_column :
    ((standardize_columns ⟨[ "fat %", "fat_percentage" ], []⟩).cols.count
      "fat_percentage") = 2 := by
  decide

/-- C3: normalization is not idempotent on its own output: the normalized
table with columns `date`, `cow_id` (itself a reachable output of the
normalizer) is renamed again on a second pass, `cow_id` becoming
`cow_id_original`. -/
theorem renormalize_not_fixed_point :
    standardize_columns ⟨[ "Date", "Cow" ],
        [ [ Value.str "2024-01-01", Value.str "42" ] ]⟩
      = ⟨[ "date", "cow_id" ], [ [ Value.str "2024-01-01", Value.str "42" ] ]⟩
    ∧ (standardize_columns ⟨[ "date", "cow_id" ],
        [ [ Value.str "2024-01-01", Value.str "42" ] ]⟩).cols
      = [ "date", "cow_id_original" ] := by
  refine ⟨by decide, by decide⟩

/-- C4: header matching is whole-word: `"format_date"` matches no canonical
field at all (in particular not `fat_percentage`) and falls back to its
slug, while `"fat %"` maps to `fat_percentage`. -/
theorem whole_word_header_matching :
    findStandard [] "format_date" = none
    ∧ resolveHeaders [ "format_date" ] = [ "format_date" ]
    ∧ resolveHeaders [ "fat %" ] = [ "fat_percentage" ] := by
  refine ⟨by decide, by decide, by decide⟩

/-- C5: with a `"date"` column present, the output rows are exactly the
input rows whose date cells parse (rows with an unparseable date are
dropped entirely), each surviving date cell replaced by the `YYYY-MM-DD`
rendering of its parsed date; the spec's two-row example normalizes to
exactly one row. -/
theorem date_rows_dropped_and_formatted (t : Table)
    (h : (resolveHeaders t.cols).contains "date" = true) :
    (standardize_columns t).rows
      = (t.rows.filter (datesOk (resolveHeaders t.cols))).map
          (fun r => coerceRow (resolveHeaders t.cols)
            (fmtDates (resolveHeaders t.cols) (applyDates (resolveHeaders t.cols) r)))
    ∧ (∀ v d, parseDate v = some d →
        fmtCell (cleanDateCell v) = Value.str (formatDate d))
    ∧ (standardize_columns exampleTable).rows.length = 1 := by
  refine ⟨standardizeRows_date (resolveHeaders t.cols) t.rows h, ?_, by decide⟩
  intro v d hv
  simp [cleanDateCell, hv, fmtCell]

/-- Witness for C5 at the spec's example table. -/
theorem date_rows_dropped_witness :
    ((resolveHeaders exampleTable.cols).contains "date" = true)
    ∧ ((standardize_columns exampleTable).rows
        = (exampleTable.rows.filter (datesOk (resolveHeaders exampleTable.cols))).map
            (fun r => coerceRow (resolveHeaders exampleTable.cols)
              (fmtDates (resolveHeaders exampleTable.cols)
                (applyDates (resolveHeaders exampleTable.cols) r)))
      ∧ (∀ v d, parseDate v = some d →
          fmtCell (cleanDateCell v) = Value.str (formatDate d))
      ∧ (standardize_columns exampleTable).rows.length = 1) :=
  ⟨by decide, date_rows_dropped_and_formatted exampleTable (by decide)⟩

/-- C6: given the header sequence `["id", "tag"]`, both matching `cow_id`
keywords, the first header claims `cow_id` and the second falls back to its
slug `"tag"`. -/
theorem tie_break_first_header_claims :
    resolveHeaders [ "id", "tag" ] = [ "cow_id", "tag" ] := by
  decide

/-- C7: a cell of a canonical numeric column that fails to parse as a
number (`to_numeric` coerces it to NaN) becomes exactly the float zero in
the output, and the numeric-coercion pass never changes the number of
rows. -/
theorem numeric_parse_failure_becomes_zero (v : Value) (names : List String)
    (rows : List (List Value)) (h : toNumericValue v = Value.nan) :
    coerceCell "milk_yield" v = Value.floatV 0
    ∧ coerceCell "fat_percentage" v = Value.floatV 0
    ∧ coerceCell "protein_percentage" v = Value.floatV 0
    ∧ coerceCell "feed_intake" v = Value.floatV 0
    ∧ (rows.map (coerceRow names)).length = rows.length := by
  refine ⟨?_, ?_, ?_, ?_, by simp⟩
  · show fillZero (toNumericValue v) = Value.floatV 0
    rw [h]
    rfl
  · show fillZero (toNumericValue v) = Value.floatV 0
    rw [h]
    rfl
  · show fillZero (toNumericValue v) = Value.floatV 0
    rw [h]
    rfl
  · show fillZero (toNumericValue v) = Value.floatV 0
    rw [h]
    rfl

/-- Witness for C7 at the spec's `"N/A"` milk-yield cell. -/
theorem numeric_parse_failure_witness :
    (toNumericValue (Value.str "N/A") = Value.nan)
    ∧ (coerceCell "milk_yield" (Value.str "N/A") = Value.floatV 0
      ∧ coerceCell "fat_percentage" (Value.str "N/A") = Value.floatV 0
      ∧ coerceCell "protein_percentage" (Value.str "N/A") = Value.floatV 0
      ∧ coerceCell "feed_intake" (Value.str "N/A") = Value.floatV 0
      ∧ (([ [ Value.str "N/A" ] ] : List (List Value)).map
          (coerceRow [ "milk_yield" ])).length
        = [ [ Value.str "N/A" ] ].length) :=
  ⟨by decide, numeric_parse_failure_becomes_zero (Value.str "N/A")
    [ "milk_yield" ] [ [ Value.str "N/A" ] ] (by decide)⟩

/-- C8: every `cow_id` cell is coerced to a string, and the whole-number
float artifact `42.0` — whether a numeric cell or the string `"42.0"` —
becomes the string `"42"`. -/
theorem cow_id_coerced_to_string (v : Value) :
    (∃ s, coerceCell "cow_id" v = Value.str s)
    ∧ coerceCell "cow_id" (Value.floatV 42) = Value.str "42"
    ∧ coerceCell "cow_id" (Value.str "42.0") = Value.str "42" :=
  ⟨⟨stripDot0 (asString v), rfl⟩, by decide, by decide⟩

/-- C9: every cell handed to the downstream boundary by the upload pipeline
is a finite scalar or an explicit null — never NaN and never an infinity;
the infinities are replaced by zero and NaN by the null marker. -/
theorem output_boundary_json_finite (t : Table) :
    ((uploadPipeline t).rows.all (fun r => r.all isJsonFinite)) = true
    ∧ sanitizeCell Value.inf = Value.floatV 0
    ∧ sanitizeCell Value.ninf = Value.floatV 0
    ∧ sanitizeCell Value.nan = Value.null := by
  refine ⟨?_, by decide, by decide, rfl⟩
  show (((standardize_columns t).rows.map (fun r => r.map sanitizeCell)).all
    (fun r => r.all isJsonFinite)) = true
  apply List.all_eq_true.mpr
  intro r hr
  obtain ⟨r₀, _, rfl⟩ := List.mem_map.mp hr
  apply List.all_eq_true.mpr
  intro v hv
  obtain ⟨v₀, _, rfl⟩ := List.mem_map.mp hv
  exact sanitize_finite v₀

/-- C10: the `.0` stripping of the `cow_id` coercion applies to the string
form of every value: any string cell ending in `.0` — numeric artifact or
not — loses the suffix, so `"v1.0"` becomes `"v1"` and `"TAG.0"` becomes
`"TAG"`. -/
theorem cow_id_strip_applies_to_any_string (s : String)
    (h : endsWithDot0 s = true) :
    coerceCell "cow_id" (Value.str s) = Value.str (String.mk s.toList.dropLast.dropLast)
    ∧ coerceCell "cow_id" (Value.str "v1.0") = Value.str "v1"
    ∧ coerceCell "cow_id" (Value.str "TAG.0") = Value.str "TAG" := by
  refine ⟨?_, by decide, by decide⟩
  show Value.str (stripDot0 s) = Value.str (String.mk s.toList.dropLast.dropLast)
  simp [stripDot0, h]

/-- Witness for C10 at the non-numeric id `"v1.0"`. -/
theorem cow_id_strip_witness :
    (endsWithDot0 "v1.0" = true)
    ∧ (coerceCell "cow_id" (Value.str "v1.0") = Value.str "v1"
      ∧ coerceCell "cow_id" (Value.str "v1.0") = Value.str "v1"
      ∧ coerceCell "cow_id" (Value.str "TAG.0") = Value.str "TAG") :=
  ⟨by decide, cow_id_strip_applies_to_any_string "v1.0" (by decide)⟩

end Dairy
